import Mathlib

/-!
Shallow embedding of the Mattermost "Approver" plugin
(repository ewwollesen/Mattermost-Plugin-Approver).

The repository consists of sequential revisions of a single plugin
source file.  The definitions below are translated from the final,
most defensive revision, `src/unnamed/part_003` (the same symbols also
appear, in earlier form, inside `src/server/plugin.go`): `OnActivate`,
`ensureBotExists`, `ExecuteCommand`, `handleNewCommand`,
`sendDirectMessage`, `sendConfirmationMessage`,
`handleDialogSubmission`, and `ServeHTTP`.

Modelling conventions:
* The host plugin API (`p.API.*`) is an oracle structure `Env`.  Each
  API call returns either the Go-style result pair or a Go panic
  (`Except GoPanic _`), since the host may panic inside any call.
* Plugin code runs in the monad `M`, which threads the list of host
  actions performed so far (KV reads/writes, user lookups, post
  creations, ...) and propagates panics; Go `defer`/`recover` is
  `recoverWith`.  Effects performed before a panic stay recorded,
  matching Go semantics.
* Go byte slices from `KVGet` are `Option String` (`none` = nil slice;
  `string(nil) = ""`, `len(nil) = 0`).
* `LogDebug` / `LogWarn` / `LogError` calls are no-ops and are not
  modelled; they affect no control flow in the source.
* `model.AppError` is abstracted to its rendered message (`AppErr`).
-/

namespace Approver

/-- A Go panic value (abstracted to its rendered message). -/
abbrev GoPanic := String

/-- Result of a single host API call: the Go return value(s), or a panic. -/
abbrev HostRes (α : Type) := Except GoPanic α

/-- `*model.AppError`, abstracted to the string its `Error()` method yields. -/
structure AppErr where
  msg : String
deriving DecidableEq

/-- The fields of `*model.User` that the plugin reads. -/
structure User where
  id : String
  username : String
deriving DecidableEq

/-- The fields of `*model.Channel` that the plugin reads. -/
structure Channel where
  id : String
deriving DecidableEq

/-- The fields of `*model.Post` that the plugin sets. -/
structure Post where
  userId : String
  channelId : String
  message : String
deriving DecidableEq

/-- The argument of `p.API.CreateBot` (`*model.Bot`): the fields the plugin sets. -/
structure BotArg where
  username : String
  displayName : String
deriving DecidableEq

/-- The `*model.Bot` value returned by `p.API.CreateBot`; the plugin reads `.UserId`. -/
structure CreatedBot where
  userId : String
deriving DecidableEq

/-- A value in the untyped dialog submission map (`map[string]interface{}`):
either a Go `string` or some non-string value. -/
inductive GoVal where
  | str (s : String)
  | nonString
deriving DecidableEq

/-- The untyped submission mapping, as an association list with unique keys. -/
abbrev Submission := List (String × GoVal)

/-- The fields of `*model.SubmitDialogRequest` that the plugin reads. -/
structure SubmitDialogRequest where
  callbackId : String
  userId : String
  channelId : String
  submission : Submission
deriving DecidableEq

/-- The request body of an HTTP callback, after the read/parse steps of
`handleDialogSubmission`: `io.ReadAll` failed, or
`model.SubmitDialogRequestFromJson` returned nil, or a parsed request. -/
inductive HttpBody where
  | unreadable
  | unparsable
  | parsed (req : SubmitDialogRequest)
deriving DecidableEq

/-- An inbound `*http.Request`, reduced to the parts the plugin inspects. -/
structure HttpRequest where
  path : String
  body : HttpBody
deriving DecidableEq

/-- What the plugin wrote into the `http.ResponseWriter` body. -/
inductive RespBody where
  | empty
  | dialogResp (err : String)
  | errorJson (msg : String)
  | notFoundPage
deriving DecidableEq

/-- The HTTP response produced by a handler. -/
structure HttpResponse where
  status : Nat
  contentType : Option String
  body : RespBody
deriving DecidableEq

/-- The fields of `*model.CommandArgs` that the plugin reads. -/
structure CommandArgs where
  command : String
  triggerId : String
deriving DecidableEq

/-- The fields of `*model.CommandResponse` that the plugin sets
(`responseType = "ephemeral"` is `model.COMMAND_RESPONSE_TYPE_EPHEMERAL`). -/
structure CommandResponse where
  responseType : String
  text : String
deriving DecidableEq

/-- One host API call performed by the plugin, as recorded in the trace. -/
inductive Action where
  | kvGet (key : String)
  | kvSet (key value : String)
  | getUser (userId : String)
  | getUserByUsername (username : String)
  | createBot (username : String)
  | getDirectChannel (fromId toId : String)
  | createPost (post : Post) (delivered : Bool)
  | sendEphemeralPost (channelId : String) (post : Post)
  | registerCommand
  | openDialog (triggerId : String)
deriving DecidableEq

/-- The host plugin API, as a deterministic oracle.  Each method returns the
Go-style results (value pointer as `Option`, error pointer as `Option AppErr`)
or panics. -/
structure Env where
  registerCommand : HostRes (Option AppErr)
  kvGet : String → HostRes (Option String × Option AppErr)
  kvSet : String → String → HostRes (Option AppErr)
  getUser : String → HostRes (Option User × Option AppErr)
  getUserByUsername : String → HostRes (Option User × Option AppErr)
  createBot : BotArg → HostRes (Option CreatedBot × Option AppErr)
  getDirectChannel : String → String → HostRes (Option Channel × Option AppErr)
  createPost : Post → HostRes (Option Post × Option AppErr)
  sendEphemeralPost : String → Post → HostRes (Option Post)
  openInteractiveDialog : String → HostRes (Option AppErr)

/-- The plugin-code monad: threads the trace of host actions and
propagates Go panics.  The trace performed before a panic is kept. -/
def M (α : Type) : Type := List Action → Except GoPanic α × List Action

instance : Monad M where
  pure a := fun s => (Except.ok a, s)
  bind x f := fun s =>
    match x s with
    | (Except.ok a, s1) => f a s1
    | (Except.error p, s1) => (Except.error p, s1)

/-- Run a plugin computation on an initial trace. -/
def M.run {α : Type} (x : M α) (s : List Action) : Except GoPanic α × List Action := x s

/-- A Go `panic(p)`. -/
def throwP {α : Type} (p : GoPanic) : M α := fun s => (Except.error p, s)

/-- Go `defer func() { if r := recover(); r != nil { ... } }()`:
run the body; on a panic run the recovery continuation instead. -/
def recoverWith {α : Type} (body : M α) (h : GoPanic → M α) : M α := fun s =>
  match body s with
  | (Except.ok a, s1) => (Except.ok a, s1)
  | (Except.error p, s1) => h p s1

/-- Perform one host API call: record it in the trace, then return its
result or propagate its panic. -/
def hostCall {α : Type} (a : Action) (r : HostRes α) : M α := fun s =>
  match r with
  | Except.ok v => (Except.ok v, s ++ [a])
  | Except.error p => (Except.error p, s ++ [a])

def apiRegisterCommand (env : Env) : M (Option AppErr) :=
  hostCall Action.registerCommand env.registerCommand

def apiKvGet (env : Env) (key : String) : M (Option String × Option AppErr) :=
  hostCall (Action.kvGet key) (env.kvGet key)

def apiKvSet (env : Env) (key value : String) : M (Option AppErr) :=
  hostCall (Action.kvSet key value) (env.kvSet key value)

def apiGetUser (env : Env) (userId : String) : M (Option User × Option AppErr) :=
  hostCall (Action.getUser userId) (env.getUser userId)

def apiGetUserByUsername (env : Env) (username : String) :
    M (Option User × Option AppErr) :=
  hostCall (Action.getUserByUsername username) (env.getUserByUsername username)

def apiCreateBot (env : Env) (b : BotArg) : M (Option CreatedBot × Option AppErr) :=
  hostCall (Action.createBot b.username) (env.createBot b)

def apiGetDirectChannel (env : Env) (fromId toId : String) :
    M (Option Channel × Option AppErr) :=
  hostCall (Action.getDirectChannel fromId toId) (env.getDirectChannel fromId toId)

/-- `p.API.CreatePost`: the recorded action notes whether the post was
actually delivered (call returned with a nil error). -/
def apiCreatePost (env : Env) (p : Post) : M (Option Post × Option AppErr) := fun s =>
  match env.createPost p with
  | Except.ok (r, e) => (Except.ok (r, e), s ++ [Action.createPost p e.isNone])
  | Except.error gp => (Except.error gp, s ++ [Action.createPost p false])

def apiSendEphemeralPost (env : Env) (channelId : String) (p : Post) :
    M (Option Post) :=
  hostCall (Action.sendEphemeralPost channelId p) (env.sendEphemeralPost channelId p)

def apiOpenDialog (env : Env) (triggerId : String) : M (Option AppErr) :=
  hostCall (Action.openDialog triggerId) (env.openInteractiveDialog triggerId)

/-- Go `botUserIDBytes != nil && len(botUserIDBytes) > 0` on a byte slice. -/
def bytesNonEmpty : Option String → Bool
  | some s => !s.isEmpty
  | none => false

/-- part_003 line 190: the formatted approval request message. -/
def approvalMessage (requesterUsername title description : String) : String :=
  "**New Approval Request from @" ++ requesterUsername ++ "**\n\n**" ++
    title ++ "**\n\n" ++ description

/-- part_003 lines 234-262: the tail of `sendDirectMessage` that sends the
message as the requesting user (reached when the bot path is unavailable
or has failed). -/
def sendAsUser (env : Env) (fromUserId toUserId message : String) :
    M (Option AppErr) := do
  let (chOpt, chErr) ← apiGetDirectChannel env fromUserId toUserId
  match chErr with
  | some e => pure (some e)
  | none =>
    match chOpt with
    | none => pure (some { msg := "Failed to get direct channel: channel is nil" })
    | some channel => do
      let (_, postErr) ← apiCreatePost env
        { userId := fromUserId, channelId := channel.id, message := message }
      pure postErr

/-- part_003 lines 169-263: `sendDirectMessage`.  Reads the cached bot id,
formats the message, first tries to post as the bot (verifying the bot
user, resolving the bot's direct channel, creating the post), and falls
back to posting as the requesting user when the bot is unavailable or any
bot-path step fails. -/
def sendDirectMessage (env : Env) (fromUserId toUserId title description : String) :
    M (Option AppErr) := do
  let (botUserIDBytes, _kvErr) ← apiKvGet env "bot_user_id"
  let (requesterOpt, reqErr) ← apiGetUser env fromUserId
  match reqErr with
  | some e => pure (some e)
  | none =>
    match requesterOpt with
    | none => pure (some { msg := "Failed to get requester info: user is nil" })
    | some requester => do
      let message := approvalMessage requester.username title description
      let sentAsBot ←
        (if bytesNonEmpty botUserIDBytes then do
          let botUserID := botUserIDBytes.getD ""
          let (botUserOpt, botUserErr) ← apiGetUser env botUserID
          match botUserErr, botUserOpt with
          | none, some _ => do
            let (botChOpt, botChErr) ← apiGetDirectChannel env botUserID toUserId
            match botChErr, botChOpt with
            | none, some botChannel => do
              let (_, postErr) ← apiCreatePost env
                { userId := botUserID, channelId := botChannel.id, message := message }
              pure postErr.isNone
            | _, _ => pure false
          | _, _ => pure false
        else pure false)
      if sentAsBot then pure none
      else sendAsUser env fromUserId toUserId message

/-- part_003 lines 464-499: `sendConfirmationMessage`, with its own
panic-recovery wrapper, parameter checks, and ephemeral confirmation post. -/
def sendConfirmationMessage (env : Env) (userId channelId : String) : M Unit :=
  recoverWith
    (if userId = "" ∨ channelId = "" then pure ()
     else
       let post : Post :=
         { userId := userId, channelId := channelId,
           message := "Your approval request has been sent to the approver." }
       if post.userId = "" ∨ post.channelId = "" ∨ post.message = "" then pure ()
       else do
         let _ ← apiSendEphemeralPost env channelId post
         pure ())
    (fun _ => pure ())

/-- part_003 lines 326-364: extraction of the three submission fields with
checked type assertions and defaults (`"Untitled Request"`,
`"No description provided"`, and the requester's own id for the approver). -/
def extractFields (submission : Submission) (requesterId : String) :
    String × String × String :=
  let title :=
    match submission.lookup "title" with
    | some (GoVal.str s) => s
    | some GoVal.nonString => "Untitled Request"
    | none => "Untitled Request"
  let description :=
    match submission.lookup "description" with
    | some (GoVal.str s) => s
    | some GoVal.nonString => "No description provided"
    | none => "No description provided"
  let approverUserId :=
    match submission.lookup "approver" with
    | some (GoVal.str s) => s
    | some GoVal.nonString => requesterId
    | none => requesterId
  (title, description, approverUserId)

/-- `w.WriteHeader(http.StatusOK)` with a JSON `SubmitDialogResponse`. -/
def okDialogResponse (e : String) : HttpResponse :=
  { status := 200, contentType := some "application/json",
    body := RespBody.dialogResp e }

/-- `w.WriteHeader(http.StatusBadRequest)` with nothing written. -/
def badRequestResponse : HttpResponse :=
  { status := 400, contentType := none, body := RespBody.empty }

/-- `http.NotFound(w, r)`. -/
def notFoundResponse : HttpResponse :=
  { status := 404, contentType := none, body := RespBody.notFoundPage }

/-- The response written by the `ServeHTTP` panic-recovery handler. -/
def internalErrorResponse : HttpResponse :=
  { status := 500, contentType := some "application/json",
    body := RespBody.errorJson "Internal server error" }

/-- part_003 lines 294-460: `handleDialogSubmission`.  Read/parse the body,
extract fields with defaults, read the cached bot id (for logging),
validate non-emptiness and that the approver resolves, send the direct
message, send the ephemeral confirmation, and write the JSON response. -/
def handleDialogSubmission (env : Env) (r : HttpRequest) : M HttpResponse := do
  match r.body with
  | HttpBody.unreadable => pure badRequestResponse
  | HttpBody.unparsable => pure badRequestResponse
  | HttpBody.parsed request => do
    let (title, description, approverUserId) :=
      extractFields request.submission request.userId
    let _ ← apiKvGet env "bot_user_id"
    if title = "" ∨ description = "" ∨ approverUserId = "" then
      pure (okDialogResponse
        "Missing required fields. Please fill in all fields and try again.")
    else do
      let (_, approverErr) ← apiGetUser env approverUserId
      match approverErr with
      | some _ => pure (okDialogResponse
          "The selected approver is invalid. Please select a different user.")
      | none => do
        let sendErr ← sendDirectMessage env request.userId approverUserId
          title description
        match sendErr with
        | some e => pure (okDialogResponse
            ("Failed to send message to approver: " ++ e.msg))
        | none => do
          sendConfirmationMessage env request.userId request.channelId
          pure (okDialogResponse "")

/-- The body of part_003 `ServeHTTP` (lines 279-291): route on the URL path. -/
def ServeHTTPBody (env : Env) (r : HttpRequest) : M HttpResponse := do
  if r.path = "/dialog/submit" then handleDialogSubmission env r
  else pure notFoundResponse

/-- part_003 lines 266-291: `ServeHTTP`, the routing body wrapped in the
deferred panic-recovery guard that writes a 500 JSON error response. -/
def ServeHTTP (env : Env) (r : HttpRequest) : M HttpResponse :=
  recoverWith (ServeHTTPBody env r) (fun _ => pure internalErrorResponse)

/-- Go `strings.HasPrefix(s, pre)`, computed on the character lists. -/
def goHasPre (s pre : String) : Bool := pre.data.isPrefixOf s.data

/-- Helper for `goFields`: scan the characters, accumulating the current
field in reverse. -/
def fieldsAux : List Char → List Char → List String
  | [], acc => if acc.isEmpty then [] else [String.mk acc.reverse]
  | c :: cs, acc =>
    if c.isWhitespace then
      (if acc.isEmpty then fieldsAux cs [] else String.mk acc.reverse :: fieldsAux cs [])
    else fieldsAux cs (c :: acc)

/-- Go `strings.Fields`: split on whitespace, dropping empty fields. -/
def goFields (s : String) : List String := fieldsAux s.data []

/-- The ephemeral "Unknown command" response of `ExecuteCommand`. -/
def unknownCommandResponse (cmd : String) : CommandResponse :=
  { responseType := "ephemeral", text := "Unknown command: " ++ cmd }

/-- The ephemeral default response of `ExecuteCommand`. -/
def helloResponse : CommandResponse :=
  { responseType := "ephemeral",
    text := "Hello, world! Use '/approver new' to open the approval form." }

/-- The ephemeral response of `handleNewCommand` when opening the dialog fails. -/
def dialogErrorResponse (e : AppErr) : CommandResponse :=
  { responseType := "ephemeral", text := "Error opening the dialog: " ++ e.msg }

/-- The empty `model.CommandResponse` returned after opening the dialog. -/
def emptyCommandResponse : CommandResponse :=
  { responseType := "", text := "" }

/-- part_003 lines 119-165: `handleNewCommand` opens the interactive
approval dialog (the fixed dialog literal itself is not inspected by any
caller and is elided; the call carries the trigger id). -/
def handleNewCommand (env : Env) (args : CommandArgs) :
    M (CommandResponse × Option AppErr) := do
  let openErr ← apiOpenDialog env args.triggerId
  match openErr with
  | some e => pure (dialogErrorResponse e, none)
  | none => pure (emptyCommandResponse, none)

/-- part_003 lines 96-116: `ExecuteCommand`.  Literal-prefix match on
`"/approver"`, then branch on the second whitespace-separated field. -/
def ExecuteCommand (env : Env) (args : CommandArgs) :
    M (CommandResponse × Option AppErr) :=
  if goHasPre args.command "/approver" = false then
    pure (unknownCommandResponse args.command, none)
  else
    match goFields args.command with
    | _ :: second :: _ =>
      if second = "new" then handleNewCommand env args
      else pure (helloResponse, none)
    | _ => pure (helloResponse, none)

/-- part_003 lines 73-92: the tail of `ensureBotExists` once the cached id
has been ruled out: look up a user with the fixed bot username, else
create the bot account.  `createdBot.UserId` on a nil `createdBot` with a
nil error is the Go nil pointer dereference panic. -/
def findOrCreateBot (env : Env) : M (String × Option AppErr) := do
  let (userOpt, _) ← apiGetUserByUsername env "approvalbot"
  match userOpt with
  | some user => pure (user.id, none)
  | none => do
    let (createdBotOpt, createErr) ← apiCreateBot env
      { username := "approvalbot", displayName := "Approver" }
    match createErr with
    | some e => pure ("", some e)
    | none =>
      match createdBotOpt with
      | some createdBot => pure (createdBot.userId, none)
      | none => throwP "runtime error: invalid memory address or nil pointer dereference"

/-- part_003 lines 57-93: `ensureBotExists`.  Cached id (if the user still
exists), else the username-lookup / bot-creation tail. -/
def ensureBotExists (env : Env) : M (String × Option AppErr) := do
  let (botUserIDBytes, kvErr) ← apiKvGet env "bot_user_id"
  match kvErr with
  | some e => pure ("", some e)
  | none => do
    let cachedId ←
      (match botUserIDBytes with
       | some botUserID => do
         let (userOpt, userErr) ← apiGetUser env botUserID
         match userErr, userOpt with
         | none, some _ => pure (some botUserID)
         | _, _ => pure none
       | none => pure (none : Option String))
    match cachedId with
    | some botUserID => pure (botUserID, none)
    | none => findOrCreateBot env

/-- part_003 lines 26-54: `OnActivate`.  Register the slash command, run
bot provisioning, and on success of provisioning with a non-empty id write
it under the fixed key; provisioning and KV-write failures are only
logged, and activation still succeeds. -/
def OnActivate (env : Env) : M (Option AppErr) := do
  let regErr ← apiRegisterCommand env
  match regErr with
  | some e => pure (some e)
  | none => do
    let (botUserID, botErr) ← ensureBotExists env
    match botErr with
    | some _ => pure none
    | none =>
      if botUserID = "" then pure none
      else do
        let _ ← apiKvSet env "bot_user_id" botUserID
        pure none

/-- The posts actually delivered (CreatePost calls that returned no error). -/
def deliveredPosts (t : List Action) : List Post :=
  t.filterMap (fun a =>
    match a with
    | Action.createPost p true => some p
    | _ => none)

/-- The keys of all KV writes in a trace. -/
def kvSetKeys (t : List Action) : List String :=
  t.filterMap (fun a =>
    match a with
    | Action.kvSet k _ => some k
    | _ => none)

/-- Whether an action sends a message (a channel post or an ephemeral post). -/
def isSendAction : Action → Bool
  | Action.createPost _ _ => true
  | Action.sendEphemeralPost _ _ => true
  | _ => false

/-- The bot id currently stored in the key-value store, if the read
returns a byte slice (`string(bytes)` of the stored value). -/
def storedBotId (env : Env) : Option String :=
  match env.kvGet "bot_user_id" with
  | Except.ok (b, _) => b
  | Except.error _ => none

/-! ### Unfolding lemmas for the plugin monad -/

@[simp] theorem M.run_pure {α : Type} (a : α) (s : List Action) :
    (pure a : M α).run s = (Except.ok a, s) := rfl

@[simp] theorem M.run_bind {α β : Type} (x : M α) (f : α → M β) (s : List Action) :
    (x >>= f).run s =
      (match x.run s with
       | (Except.ok a, s1) => (f a).run s1
       | (Except.error p, s1) => (Except.error p, s1)) := rfl

@[simp] theorem M.run_throwP {α : Type} (p : GoPanic) (s : List Action) :
    (throwP p : M α).run s = (Except.error p, s) := rfl

@[simp] theorem M.run_recoverWith {α : Type} (body : M α) (h : GoPanic → M α)
    (s : List Action) :
    (recoverWith body h).run s =
      (match body.run s with
       | (Except.ok a, s1) => (Except.ok a, s1)
       | (Except.error p, s1) => (h p).run s1) := rfl

@[simp] theorem run_hostCall {α : Type} (a : Action) (r : HostRes α) (s : List Action) :
    (hostCall a r).run s =
      (match r with
       | Except.ok v => (Except.ok v, s ++ [a])
       | Except.error p => (Except.error p, s ++ [a])) := rfl

@[simp] theorem run_apiCreatePost (env : Env) (p : Post) (s : List Action) :
    (apiCreatePost env p).run s =
      (match env.createPost p with
       | Except.ok (r, e) => (Except.ok (r, e), s ++ [Action.createPost p e.isNone])
       | Except.error gp => (Except.error gp, s ++ [Action.createPost p false])) := rfl

@[simp] theorem kvSetKeys_nil : kvSetKeys [] = [] := rfl

@[simp] theorem kvSetKeys_append (t1 t2 : List Action) :
    kvSetKeys (t1 ++ t2) = kvSetKeys t1 ++ kvSetKeys t2 :=
  List.filterMap_append t1 t2 _

@[simp] theorem deliveredPosts_nil : deliveredPosts [] = [] := rfl

@[simp] theorem deliveredPosts_append (t1 t2 : List Action) :
    deliveredPosts (t1 ++ t2) = deliveredPosts t1 ++ deliveredPosts t2 :=
  List.filterMap_append t1 t2 _

@[simp] theorem kvSetKeys_cons (a : Action) (t : List Action) :
    kvSetKeys (a :: t) =
      (match a with
       | Action.kvSet k _ => k :: kvSetKeys t
       | _ => kvSetKeys t) := by
  cases a <;> rfl

@[simp] theorem deliveredPosts_cons (a : Action) (t : List Action) :
    deliveredPosts (a :: t) =
      (match a with
       | Action.createPost p true => p :: deliveredPosts t
       | _ => deliveredPosts t) := by
  cases a with
  | createPost p b => cases b <;> rfl
  | _ => rfl

/-! ### Behaviour of `sendAsUser` (the user-path tail of `sendDirectMessage`) -/

/-- Complete characterisation of the effects of the user-path send: it
never writes the KV store, only creates posts authored by the requesting
user carrying the given message, delivers at most one post (exactly one
when it returns a nil error), sends no ephemeral post, and only resolves
the requester-toId-approver direct channel. -/
theorem sendAsUser_spec (env : Env) (f toId msg : String) (s : List Action) :
    ∃ res t, (sendAsUser env f toId msg).run s = (res, s ++ t) ∧
      kvSetKeys t = [] ∧
      (∀ p b, Action.createPost p b ∈ t → p.userId = f ∧ p.message = msg) ∧
      (deliveredPosts t).length ≤ 1 ∧
      (res = Except.ok none → (deliveredPosts t).length = 1) ∧
      (∀ c p, Action.sendEphemeralPost c p ∈ t → False) ∧
      (∀ a b, Action.getDirectChannel a b ∈ t → a = f ∧ b = toId) := by
  rcases hgdc : env.getDirectChannel f toId with p | ⟨chOpt, chErr⟩
  · exact ⟨Except.error p, [Action.getDirectChannel f toId],
      by simp [sendAsUser, apiGetDirectChannel, hgdc],
      by simp [kvSetKeys, deliveredPosts]⟩
  · rcases chErr with _ | e
    · rcases chOpt with _ | ch
      · exact ⟨Except.ok (some { msg := "Failed to get direct channel: channel is nil" }),
          [Action.getDirectChannel f toId],
          by simp [sendAsUser, apiGetDirectChannel, hgdc],
          by simp [kvSetKeys, deliveredPosts]⟩
      · rcases hcp : env.createPost { userId := f, channelId := ch.id, message := msg }
          with gp | ⟨r, e⟩
        · exact ⟨Except.error gp,
            [Action.getDirectChannel f toId,
             Action.createPost { userId := f, channelId := ch.id, message := msg } false],
            by simp [sendAsUser, apiGetDirectChannel, hgdc, hcp],
            by simp [kvSetKeys, deliveredPosts]⟩
        · rcases e with _ | e
          · exact ⟨Except.ok none,
              [Action.getDirectChannel f toId,
               Action.createPost { userId := f, channelId := ch.id, message := msg } true],
              by simp [sendAsUser, apiGetDirectChannel, hgdc, hcp],
              by simp [kvSetKeys, deliveredPosts]⟩
          · exact ⟨Except.ok (some e),
              [Action.getDirectChannel f toId,
               Action.createPost { userId := f, channelId := ch.id, message := msg } false],
              by simp [sendAsUser, apiGetDirectChannel, hgdc, hcp],
              by simp [kvSetKeys, deliveredPosts]⟩
    · exact ⟨Except.ok (some e), [Action.getDirectChannel f toId],
        by simp [sendAsUser, apiGetDirectChannel, hgdc],
        by simp [kvSetKeys, deliveredPosts]⟩

/-- Gluing lemma: running the user-path fallback after a prefix of
bot-path actions preserves the `sendDirectMessage` trace invariants. -/
theorem sendAsUser_glue (env : Env) (f toId msg : String) (s t0 : List Action)
    (h0set : kvSetKeys t0 = [])
    (h0del : deliveredPosts t0 = [])
    (h0post : ∀ p b, Action.createPost p b ∈ t0 →
      p.userId = f ∨ some p.userId = storedBotId env)
    (h0eph : ∀ c p, Action.sendEphemeralPost c p ∈ t0 → False)
    (h0gdc : ∀ a b, Action.getDirectChannel a b ∈ t0 → b = toId) :
    ∃ res t, (sendAsUser env f toId msg).run (s ++ t0) = (res, s ++ t) ∧
      kvSetKeys t = [] ∧
      (∀ p b, Action.createPost p b ∈ t →
        p.userId = f ∨ some p.userId = storedBotId env) ∧
      (deliveredPosts t).length ≤ 1 ∧
      (res = Except.ok none → (deliveredPosts t).length = 1) ∧
      (∀ c p, Action.sendEphemeralPost c p ∈ t → False) ∧
      (∀ a b, Action.getDirectChannel a b ∈ t → b = toId) := by
  obtain ⟨res, t1, hrun, hset, hpost, hdel, hdel1, heph, hgdc⟩ :=
    sendAsUser_spec env f toId msg (s ++ t0)
  refine ⟨res, t0 ++ t1, ?_, ?_, ?_, ?_, ?_, ?_, ?_⟩
  · rw [hrun, List.append_assoc]
  · simp [h0set, hset]
  · intro p b hp
    rcases List.mem_append.mp hp with hp | hp
    · exact h0post p b hp
    · exact Or.inl (hpost p b hp).1
  · simp [h0del, hdel]
  · intro hres
    simp [h0del, hdel1 hres]
  · intro c p hp
    rcases List.mem_append.mp hp with hp | hp
    · exact h0eph c p hp
    · exact heph c p hp
  · intro a b hp
    rcases List.mem_append.mp hp with hp | hp
    · exact h0gdc a b hp
    · exact (hgdc a b hp).2

/-- Complete characterisation of the effects of `sendDirectMessage`: it
never writes the KV store, every post it creates is authored by the
requesting user or by the stored bot id, it delivers at most one post
(exactly one when it returns a nil error), it sends no ephemeral post,
and every direct channel it resolves targets the chosen recipient. -/
theorem sendDirectMessage_spec (env : Env) (f toId title desc : String) (s : List Action) :
    ∃ res t, (sendDirectMessage env f toId title desc).run s = (res, s ++ t) ∧
      kvSetKeys t = [] ∧
      (∀ p b, Action.createPost p b ∈ t →
        p.userId = f ∨ some p.userId = storedBotId env) ∧
      (deliveredPosts t).length ≤ 1 ∧
      (res = Except.ok none → (deliveredPosts t).length = 1) ∧
      (∀ c p, Action.sendEphemeralPost c p ∈ t → False) ∧
      (∀ a b, Action.getDirectChannel a b ∈ t → b = toId) := by
  rcases hkv : env.kvGet "bot_user_id" with p | ⟨bytes, kvE⟩
  · exact ⟨Except.error p, [Action.kvGet "bot_user_id"],
      by simp [sendDirectMessage, apiKvGet, hkv],
      by simp [kvSetKeys, deliveredPosts]⟩
  · rcases hgu : env.getUser f with p | ⟨uOpt, uErr⟩
    · exact ⟨Except.error p, [Action.kvGet "bot_user_id", Action.getUser f],
        by simp [sendDirectMessage, apiKvGet, apiGetUser, hkv, hgu],
        by simp [kvSetKeys, deliveredPosts]⟩
    · rcases uErr with _ | e
      · rcases uOpt with _ | requester
        · exact ⟨Except.ok (some { msg := "Failed to get requester info: user is nil" }),
            [Action.kvGet "bot_user_id", Action.getUser f],
            by simp [sendDirectMessage, apiKvGet, apiGetUser, hkv, hgu],
            by simp [kvSetKeys, deliveredPosts]⟩
        · rcases bytes with _ | bs
          · -- nil byte slice: straight to the user fallback
            obtain ⟨res, t, hrun, hrest⟩ := sendAsUser_glue env f toId
              (approvalMessage requester.username title desc) s
              [Action.kvGet "bot_user_id", Action.getUser f]
              (by simp [kvSetKeys]) (by simp [deliveredPosts])
              (by simp) (by simp) (by simp)
            exact ⟨res, t, by
                      simp [sendDirectMessage, apiKvGet, apiGetUser, hkv, hgu, bytesNonEmpty, hrun, List.append_assoc], hrest⟩
          · by_cases hbs : bs.isEmpty
            · -- empty byte slice: also straight to the user fallback
              obtain ⟨res, t, hrun, hrest⟩ := sendAsUser_glue env f toId
                (approvalMessage requester.username title desc) s
                [Action.kvGet "bot_user_id", Action.getUser f]
                (by simp [kvSetKeys]) (by simp [deliveredPosts])
                (by simp) (by simp) (by simp)
              exact ⟨res, t, by
                      simp [sendDirectMessage, apiKvGet, apiGetUser, hkv, hgu, bytesNonEmpty, hbs, hrun, List.append_assoc], hrest⟩
            · -- bot id present: verify the bot user
              rcases hgb : env.getUser bs with p | ⟨buOpt, buErr⟩
              · exact ⟨Except.error p,
                  [Action.kvGet "bot_user_id", Action.getUser f, Action.getUser bs],
                  by simp [sendDirectMessage, apiKvGet, apiGetUser, hkv, hgu,
                    bytesNonEmpty, hbs, hgb],
                  by simp [kvSetKeys, deliveredPosts]⟩
              · rcases buErr with _ | be
                · rcases buOpt with _ | bu
                  · -- bot user nil: fallback
                    obtain ⟨res, t, hrun, hrest⟩ := sendAsUser_glue env f toId
                      (approvalMessage requester.username title desc) s
                      [Action.kvGet "bot_user_id", Action.getUser f, Action.getUser bs]
                      (by simp [kvSetKeys]) (by simp [deliveredPosts])
                      (by simp) (by simp) (by simp)
                    exact ⟨res, t, by
                      simp [sendDirectMessage, apiKvGet, apiGetUser, hkv, hgu, hgb, bytesNonEmpty, hbs, hrun, List.append_assoc], hrest⟩
                  · -- bot user ok: resolve the bot direct channel
                    rcases hgc : env.getDirectChannel bs toId with p | ⟨chOpt, chErr⟩
                    · exact ⟨Except.error p,
                        [Action.kvGet "bot_user_id", Action.getUser f, Action.getUser bs,
                         Action.getDirectChannel bs toId],
                        by simp [sendDirectMessage, apiKvGet, apiGetUser,
                          apiGetDirectChannel, hkv, hgu, hgb, hgc, bytesNonEmpty, hbs],
                        by simp [kvSetKeys, deliveredPosts]⟩
                    · rcases chErr with _ | ce
                      · rcases chOpt with _ | bch
                        · -- bot channel nil: fallback
                          obtain ⟨res, t, hrun, hrest⟩ := sendAsUser_glue env f toId
                            (approvalMessage requester.username title desc) s
                            [Action.kvGet "bot_user_id", Action.getUser f,
                             Action.getUser bs, Action.getDirectChannel bs toId]
                            (by simp [kvSetKeys]) (by simp [deliveredPosts])
                            (by simp) (by simp) (by simp)
                          exact ⟨res, t, by
                      simp [sendDirectMessage, apiKvGet, apiGetUser, apiGetDirectChannel, hkv, hgu, hgb, hgc, bytesNonEmpty, hbs, hrun, List.append_assoc], hrest⟩
                        · -- bot channel ok: create the bot post
                          rcases hcp : env.createPost
                              { userId := bs, channelId := bch.id,
                                message := approvalMessage requester.username title desc }
                            with gp | ⟨r, pe⟩
                          · exact ⟨Except.error gp,
                              [Action.kvGet "bot_user_id", Action.getUser f,
                               Action.getUser bs, Action.getDirectChannel bs toId,
                               Action.createPost
                                 { userId := bs, channelId := bch.id,
                                   message := approvalMessage requester.username title desc }
                                 false],
                              by simp [sendDirectMessage, apiKvGet, apiGetUser,
                                apiGetDirectChannel, hkv, hgu, hgb, hgc, hcp,
                                bytesNonEmpty, hbs],
                              by simp [kvSetKeys, deliveredPosts, storedBotId, hkv]⟩
                          · rcases pe with _ | pee
                            · -- bot post delivered
                              exact ⟨Except.ok none,
                                [Action.kvGet "bot_user_id", Action.getUser f,
                                 Action.getUser bs, Action.getDirectChannel bs toId,
                                 Action.createPost
                                   { userId := bs, channelId := bch.id,
                                     message := approvalMessage requester.username title desc }
                                   true],
                                by simp [sendDirectMessage, apiKvGet, apiGetUser,
                                  apiGetDirectChannel, hkv, hgu, hgb, hgc, hcp,
                                  bytesNonEmpty, hbs],
                                by simp [kvSetKeys, deliveredPosts, storedBotId, hkv]⟩
                            · -- bot post failed: fallback
                              obtain ⟨res, t, hrun, hrest⟩ := sendAsUser_glue env f toId
                                (approvalMessage requester.username title desc) s
                                [Action.kvGet "bot_user_id", Action.getUser f,
                                 Action.getUser bs, Action.getDirectChannel bs toId,
                                 Action.createPost
                                   { userId := bs, channelId := bch.id,
                                     message := approvalMessage requester.username title desc }
                                   false]
                                (by simp [kvSetKeys]) (by simp [deliveredPosts])
                                (by simp [storedBotId, hkv]) (by simp) (by simp)
                              exact ⟨res, t, by
                      simp [sendDirectMessage, apiKvGet, apiGetUser, apiGetDirectChannel, hkv, hgu, hgb, hgc, hcp, bytesNonEmpty, hbs, hrun, List.append_assoc], hrest⟩
                      · -- bot channel lookup errored: fallback
                        obtain ⟨res, t, hrun, hrest⟩ := sendAsUser_glue env f toId
                          (approvalMessage requester.username title desc) s
                          [Action.kvGet "bot_user_id", Action.getUser f,
                           Action.getUser bs, Action.getDirectChannel bs toId]
                          (by simp [kvSetKeys]) (by simp [deliveredPosts])
                          (by simp) (by simp) (by simp)
                        exact ⟨res, t, by
                      simp [sendDirectMessage, apiKvGet, apiGetUser, apiGetDirectChannel, hkv, hgu, hgb, hgc, bytesNonEmpty, hbs, hrun, List.append_assoc], hrest⟩
                · -- bot user lookup errored: fallback
                  obtain ⟨res, t, hrun, hrest⟩ := sendAsUser_glue env f toId
                    (approvalMessage requester.username title desc) s
                    [Action.kvGet "bot_user_id", Action.getUser f, Action.getUser bs]
                    (by simp [kvSetKeys]) (by simp [deliveredPosts])
                    (by simp) (by simp) (by simp)
                  exact ⟨res, t, by
                      simp [sendDirectMessage, apiKvGet, apiGetUser, hkv, hgu, hgb, bytesNonEmpty, hbs, hrun, List.append_assoc], hrest⟩
      · exact ⟨Except.ok (some e), [Action.kvGet "bot_user_id", Action.getUser f],
          by simp [sendDirectMessage, apiKvGet, apiGetUser, hkv, hgu],
          by simp [kvSetKeys, deliveredPosts]⟩



theorem sendConfirmationMessage_spec (env : Env) (userId channelId : String)
    (s : List Action) :
    ∃ t, (sendConfirmationMessage env userId channelId).run s = (Except.ok (), s ++ t) ∧
      kvSetKeys t = [] ∧
      deliveredPosts t = [] ∧
      (∀ p b, Action.createPost p b ∈ t → False) ∧
      (∀ a b, Action.getDirectChannel a b ∈ t → False) := by
  by_cases hempty : userId = "" ∨ channelId = ""
  · exact ⟨[], by simp [sendConfirmationMessage, hempty], by simp, by simp, by simp, by simp⟩
  · push_neg at hempty
    rcases heph : env.sendEphemeralPost channelId
        { userId := userId, channelId := channelId,
          message := "Your approval request has been sent to the approver." }
      with p | po
    · exact ⟨[Action.sendEphemeralPost channelId
        { userId := userId, channelId := channelId,
          message := "Your approval request has been sent to the approver." }],
        by simp [sendConfirmationMessage, apiSendEphemeralPost, heph, hempty.1, hempty.2],
        by simp [kvSetKeys], by simp [deliveredPosts], by simp, by simp⟩
    · exact ⟨[Action.sendEphemeralPost channelId
        { userId := userId, channelId := channelId,
          message := "Your approval request has been sent to the approver." }],
        by simp [sendConfirmationMessage, apiSendEphemeralPost, heph, hempty.1, hempty.2],
        by simp [kvSetKeys], by simp [deliveredPosts], by simp, by simp⟩



theorem failedMsg_ne_empty (m : String) :
    "Failed to send message to approver: " ++ m ≠ "" := by
  intro h
  have h2 := congrArg String.length h
  rw [String.length_append] at h2
  have h3 : ("Failed to send message to approver: ").length = 36 := rfl
  have h4 : ("" : String).length = 0 := rfl
  rw [h3, h4] at h2
  omega

/-- The requester id carried by a request body (empty for bodies that fail
to read or parse). -/
def submitterId (r : HttpRequest) : String :=
  match r.body with
  | HttpBody.parsed req => req.userId
  | _ => ""

/-- The approver id the handler extracts from a request body (empty for
bodies that fail to read or parse). -/
def submittedApprover (r : HttpRequest) : String :=
  match r.body with
  | HttpBody.parsed req => (extractFields req.submission req.userId).2.2
  | _ => ""

/-- Complete characterisation of the effects of `handleDialogSubmission`:
no KV writes, every created post is authored by the submitter or the
stored bot id, at most one post is delivered (exactly one when the success
response is returned), and every resolved direct channel targets the
extracted approver. -/
theorem handleDialogSubmission_spec (env : Env) (r : HttpRequest) (s : List Action) :
    ∃ res t, (handleDialogSubmission env r).run s = (res, s ++ t) ∧
      kvSetKeys t = [] ∧
      (∀ p b, Action.createPost p b ∈ t →
        p.userId = submitterId r ∨ some p.userId = storedBotId env) ∧
      (deliveredPosts t).length ≤ 1 ∧
      (res = Except.ok (okDialogResponse "") → (deliveredPosts t).length = 1) ∧
      (∀ a b, Action.getDirectChannel a b ∈ t → b = submittedApprover r) := by
  rcases hb : r.body with _ | _ | req
  · exact ⟨Except.ok badRequestResponse, [],
      by simp [handleDialogSubmission, hb], by simp, by simp, by simp,
      by simp [badRequestResponse, okDialogResponse], by simp⟩
  · exact ⟨Except.ok badRequestResponse, [],
      by simp [handleDialogSubmission, hb], by simp, by simp, by simp,
      by simp [badRequestResponse, okDialogResponse], by simp⟩
  · rcases hext : extractFields req.submission req.userId with ⟨tt, dd, aa⟩
    rcases hkv : env.kvGet "bot_user_id" with p | kv
    · exact ⟨Except.error p, [Action.kvGet "bot_user_id"],
        by simp [handleDialogSubmission, hb, hext, apiKvGet, hkv],
        by simp [kvSetKeys], by simp, by simp [deliveredPosts], by simp, by simp⟩
    · by_cases hval : tt = "" ∨ dd = "" ∨ aa = ""
      · exact ⟨Except.ok (okDialogResponse
            "Missing required fields. Please fill in all fields and try again."),
          [Action.kvGet "bot_user_id"],
          by simp [handleDialogSubmission, hb, hext, apiKvGet, hkv, hval],
          by simp [kvSetKeys], by simp, by simp [deliveredPosts],
          by simp [okDialogResponse, deliveredPosts], by simp⟩
      · rcases hgu : env.getUser aa with p | ⟨auOpt, auErr⟩
        · exact ⟨Except.error p, [Action.kvGet "bot_user_id", Action.getUser aa],
            by simp [handleDialogSubmission, hb, hext, apiKvGet, apiGetUser, hkv, hgu, hval],
            by simp [kvSetKeys], by simp, by simp [deliveredPosts], by simp, by simp⟩
        · rcases auErr with _ | ae
          · -- approver resolves: run the send
            obtain ⟨res1, t1, hrun1, hset1, hpost1, hdel1, hdelone1, heph1, hgdc1⟩ :=
              sendDirectMessage_spec env req.userId aa tt dd
                (s ++ [Action.kvGet "bot_user_id", Action.getUser aa])
            simp only [List.append_assoc, List.cons_append, List.nil_append] at hrun1
            rcases res1 with p | sdErr
            · refine ⟨Except.error p,
                [Action.kvGet "bot_user_id", Action.getUser aa] ++ t1, ?_, ?_, ?_, ?_, ?_, ?_⟩
              · simp [handleDialogSubmission, hb, hext, apiKvGet, apiGetUser, hkv, hgu,
                  hval, hrun1, List.append_assoc]
              · simp [hset1]
              · intro p b hp
                rcases List.mem_append.mp hp with hp | hp
                · simp at hp
                · simpa [submitterId, hb] using hpost1 p b hp
              · simpa using hdel1
              · simp
              · intro a b hp
                rcases List.mem_append.mp hp with hp | hp
                · simp at hp
                · simpa [submittedApprover, hb, hext] using hgdc1 a b hp
            · rcases sdErr with _ | e
              · -- send succeeded: confirmation + success response
                obtain ⟨t2, hrun2, hset2, hdel2, hpost2, hgdc2⟩ :=
                  sendConfirmationMessage_spec env req.userId req.channelId
                    (s ++ ([Action.kvGet "bot_user_id", Action.getUser aa] ++ t1))
                simp only [List.append_assoc, List.cons_append, List.nil_append] at hrun2
                refine ⟨Except.ok (okDialogResponse ""),
                  ([Action.kvGet "bot_user_id", Action.getUser aa] ++ t1) ++ t2,
                  ?_, ?_, ?_, ?_, ?_, ?_⟩
                · simp [handleDialogSubmission, hb, hext, apiKvGet, apiGetUser, hkv, hgu,
                    hval, hrun1, hrun2, List.append_assoc]
                · simp [hset1, hset2]
                · intro p b hp
                  rcases List.mem_append.mp hp with hp | hp
                  · rcases List.mem_append.mp hp with hp | hp
                    · simp at hp
                    · simpa [submitterId, hb] using hpost1 p b hp
                  · exact absurd (hpost2 p b hp) (by simp)
                · simp [hdel2, hdelone1 rfl]
                · intro _
                  simp [hdel2, hdelone1 rfl]
                · intro a b hp
                  rcases List.mem_append.mp hp with hp | hp
                  · rcases List.mem_append.mp hp with hp | hp
                    · simp at hp
                    · simpa [submittedApprover, hb, hext] using hgdc1 a b hp
                  · exact absurd (hgdc2 a b hp) (by simp)
              · -- send failed: error response
                refine ⟨Except.ok (okDialogResponse
                    ("Failed to send message to approver: " ++ e.msg)),
                  [Action.kvGet "bot_user_id", Action.getUser aa] ++ t1, ?_, ?_, ?_, ?_, ?_, ?_⟩
                · simp [handleDialogSubmission, hb, hext, apiKvGet, apiGetUser, hkv, hgu,
                    hval, hrun1, List.append_assoc]
                · simp [hset1]
                · intro p b hp
                  rcases List.mem_append.mp hp with hp | hp
                  · simp at hp
                  · simpa [submitterId, hb] using hpost1 p b hp
                · simpa using hdel1
                · intro hcontra
                  exfalso
                  have h5 : ("Failed to send message to approver: " ++ e.msg) = "" := by
                    simpa [okDialogResponse] using hcontra
                  exact failedMsg_ne_empty e.msg h5
                · intro a b hp
                  rcases List.mem_append.mp hp with hp | hp
                  · simp at hp
                  · simpa [submittedApprover, hb, hext] using hgdc1 a b hp
          · -- approver lookup errored: invalid-approver response
            exact ⟨Except.ok (okDialogResponse
                "The selected approver is invalid. Please select a different user."),
              [Action.kvGet "bot_user_id", Action.getUser aa],
              by simp [handleDialogSubmission, hb, hext, apiKvGet, apiGetUser, hkv, hgu, hval],
              by simp [kvSetKeys], by simp, by simp [deliveredPosts],
              by simp [okDialogResponse, deliveredPosts], by simp⟩



/-- `findOrCreateBot` never writes the KV store. -/
theorem findOrCreateBot_spec (env : Env) (s : List Action) :
    ∃ res t, (findOrCreateBot env).run s = (res, s ++ t) ∧ kvSetKeys t = [] := by
  rcases hfind : env.getUserByUsername "approvalbot" with p | ⟨uOpt, uErr⟩
  · exact ⟨Except.error p, [Action.getUserByUsername "approvalbot"],
      by simp [findOrCreateBot, apiGetUserByUsername, hfind], by simp⟩
  · rcases uOpt with _ | u
    · rcases hcb : env.createBot { username := "approvalbot", displayName := "Approver" }
        with p | ⟨cbOpt, cbErr⟩
      · exact ⟨Except.error p,
          [Action.getUserByUsername "approvalbot", Action.createBot "approvalbot"],
          by simp [findOrCreateBot, apiGetUserByUsername, apiCreateBot, hfind, hcb],
          by simp⟩
      · rcases cbErr with _ | ce
        · rcases cbOpt with _ | cb
          · exact ⟨Except.error "runtime error: invalid memory address or nil pointer dereference",
              [Action.getUserByUsername "approvalbot", Action.createBot "approvalbot"],
              by simp [findOrCreateBot, apiGetUserByUsername, apiCreateBot, hfind, hcb],
              by simp⟩
          · exact ⟨Except.ok (cb.userId, none),
              [Action.getUserByUsername "approvalbot", Action.createBot "approvalbot"],
              by simp [findOrCreateBot, apiGetUserByUsername, apiCreateBot, hfind, hcb],
              by simp⟩
        · exact ⟨Except.ok ("", some ce),
            [Action.getUserByUsername "approvalbot", Action.createBot "approvalbot"],
            by simp [findOrCreateBot, apiGetUserByUsername, apiCreateBot, hfind, hcb],
            by simp⟩
    · exact ⟨Except.ok (u.id, none), [Action.getUserByUsername "approvalbot"],
        by simp [findOrCreateBot, apiGetUserByUsername, hfind], by simp⟩

/-- `ensureBotExists` never writes the KV store. -/
theorem ensureBotExists_spec (env : Env) (s : List Action) :
    ∃ res t, (ensureBotExists env).run s = (res, s ++ t) ∧ kvSetKeys t = [] := by
  rcases hkv : env.kvGet "bot_user_id" with p | ⟨bytes, kvE⟩
  · exact ⟨Except.error p, [Action.kvGet "bot_user_id"],
      by simp [ensureBotExists, apiKvGet, hkv], by simp⟩
  · rcases kvE with _ | e
    · rcases bytes with _ | bs
      · obtain ⟨res, t, hrun, hset⟩ := findOrCreateBot_spec env (s ++ [Action.kvGet "bot_user_id"])
        simp only [List.append_assoc, List.cons_append, List.nil_append] at hrun
        exact ⟨res, Action.kvGet "bot_user_id" :: t,
          by simp [ensureBotExists, apiKvGet, hkv, hrun], by simp [hset]⟩
      · rcases hgu : env.getUser bs with p | ⟨uOpt, uErr⟩
        · exact ⟨Except.error p, [Action.kvGet "bot_user_id", Action.getUser bs],
            by simp [ensureBotExists, apiKvGet, apiGetUser, hkv, hgu], by simp⟩
        · rcases uErr with _ | ue
          · rcases uOpt with _ | u
            · obtain ⟨res, t, hrun, hset⟩ := findOrCreateBot_spec env
                (s ++ [Action.kvGet "bot_user_id", Action.getUser bs])
              simp only [List.append_assoc, List.cons_append, List.nil_append] at hrun
              exact ⟨res, Action.kvGet "bot_user_id" :: Action.getUser bs :: t,
                by simp [ensureBotExists, apiKvGet, apiGetUser, hkv, hgu, hrun],
                by simp [hset]⟩
            · exact ⟨Except.ok (bs, none), [Action.kvGet "bot_user_id", Action.getUser bs],
                by simp [ensureBotExists, apiKvGet, apiGetUser, hkv, hgu], by simp⟩
          · obtain ⟨res, t, hrun, hset⟩ := findOrCreateBot_spec env
              (s ++ [Action.kvGet "bot_user_id", Action.getUser bs])
            simp only [List.append_assoc, List.cons_append, List.nil_append] at hrun
            exact ⟨res, Action.kvGet "bot_user_id" :: Action.getUser bs :: t,
              by simp [ensureBotExists, apiKvGet, apiGetUser, hkv, hgu, hrun],
              by simp [hset]⟩
    · exact ⟨Except.ok ("", some e), [Action.kvGet "bot_user_id"],
        by simp [ensureBotExists, apiKvGet, hkv], by simp⟩

/-- Every activation writes the KV store at most once, and only ever under
the fixed key. -/
theorem OnActivate_spec (env : Env) (s : List Action) :
    ∃ res t, (OnActivate env).run s = (res, s ++ t) ∧
      (kvSetKeys t = [] ∨ kvSetKeys t = ["bot_user_id"]) := by
  rcases hreg : env.registerCommand with p | re
  · exact ⟨Except.error p, [Action.registerCommand],
      by simp [OnActivate, apiRegisterCommand, hreg], Or.inl (by simp)⟩
  · rcases re with _ | e
    · obtain ⟨res1, t1, hrun1, hset1⟩ := ensureBotExists_spec env (s ++ [Action.registerCommand])
      simp only [List.append_assoc, List.cons_append, List.nil_append] at hrun1
      rcases res1 with p | ⟨id, berr⟩
      · exact ⟨Except.error p, Action.registerCommand :: t1,
          by simp [OnActivate, apiRegisterCommand, hreg, hrun1], Or.inl (by simp [hset1])⟩
      · rcases berr with _ | be
        · by_cases hid : id = ""
          · exact ⟨Except.ok none, Action.registerCommand :: t1,
              by simp [OnActivate, apiRegisterCommand, hreg, hrun1, hid],
              Or.inl (by simp [hset1])⟩
          · rcases hsetx : env.kvSet "bot_user_id" id with p | se
            · exact ⟨Except.error p,
                Action.registerCommand :: (t1 ++ [Action.kvSet "bot_user_id" id]),
                by simp [OnActivate, apiRegisterCommand, apiKvSet, hreg, hrun1, hid, hsetx,
                  List.append_assoc],
                Or.inr (by simp [hset1])⟩
            · exact ⟨Except.ok none,
                Action.registerCommand :: (t1 ++ [Action.kvSet "bot_user_id" id]),
                by simp [OnActivate, apiRegisterCommand, apiKvSet, hreg, hrun1, hid, hsetx,
                  List.append_assoc],
                Or.inr (by simp [hset1])⟩
        · exact ⟨Except.ok none, Action.registerCommand :: t1,
            by simp [OnActivate, apiRegisterCommand, hreg, hrun1], Or.inl (by simp [hset1])⟩
    · exact ⟨Except.ok (some e), [Action.registerCommand],
        by simp [OnActivate, apiRegisterCommand, hreg], Or.inl (by simp)⟩

/-- `ExecuteCommand` never writes the KV store, never sends any message,
and every normal return carries a nil error. -/
theorem ExecuteCommand_spec (env : Env) (args : CommandArgs) (s : List Action) :
    ∃ res t, (ExecuteCommand env args).run s = (res, s ++ t) ∧
      kvSetKeys t = [] ∧
      (∀ a, a ∈ t → isSendAction a = false) ∧
      (∀ cr e, res = Except.ok (cr, e) → e = none) := by
  by_cases hpre : goHasPre args.command "/approver" = true
  · rcases hf : goFields args.command with _ | ⟨w1, rest⟩
    · exact ⟨Except.ok (helloResponse, none), [],
        by simp [ExecuteCommand, hpre, hf], by simp, by simp, by simp⟩
    · rcases rest with _ | ⟨w2, rest2⟩
      · exact ⟨Except.ok (helloResponse, none), [],
          by simp [ExecuteCommand, hpre, hf], by simp, by simp, by simp⟩
      · by_cases hw2 : w2 = "new"
        · rcases hod : env.openInteractiveDialog args.triggerId with p | oe
          · exact ⟨Except.error p, [Action.openDialog args.triggerId],
              by simp [ExecuteCommand, handleNewCommand, apiOpenDialog, hpre, hf, hw2, hod],
              by simp, by simp [isSendAction], by simp⟩
          · rcases oe with _ | e
            · exact ⟨Except.ok (emptyCommandResponse, none),
                [Action.openDialog args.triggerId],
                by simp [ExecuteCommand, handleNewCommand, apiOpenDialog, hpre, hf, hw2, hod],
                by simp, by simp [isSendAction], by simp⟩
            · exact ⟨Except.ok (dialogErrorResponse e, none),
                [Action.openDialog args.triggerId],
                by simp [ExecuteCommand, handleNewCommand, apiOpenDialog, hpre, hf, hw2, hod],
                by simp, by simp [isSendAction], by simp⟩
        · exact ⟨Except.ok (helloResponse, none), [],
            by simp [ExecuteCommand, hpre, hf, hw2], by simp, by simp, by simp⟩
  · exact ⟨Except.ok (unknownCommandResponse args.command, none), [],
      by simp [ExecuteCommand, hpre], by simp, by simp, by simp⟩

/-- `ServeHTTP` always returns a response (the recovery guard turns any
panic into the 500 JSON response) and never writes the KV store. -/
theorem ServeHTTP_spec (env : Env) (r : HttpRequest) (s : List Action) :
    ∃ resp t, (ServeHTTP env r).run s = (Except.ok resp, s ++ t) ∧ kvSetKeys t = [] := by
  by_cases hpath : r.path = "/dialog/submit"
  · obtain ⟨res, t, hrun, hset, _⟩ := handleDialogSubmission_spec env r s
    rcases res with p | resp
    · exact ⟨internalErrorResponse, t,
        by simp [ServeHTTP, ServeHTTPBody, hpath, hrun], hset⟩
    · exact ⟨resp, t, by simp [ServeHTTP, ServeHTTPBody, hpath, hrun], hset⟩
  · exact ⟨notFoundResponse, [],
      by simp [ServeHTTP, ServeHTTPBody, hpath], by simp⟩



/-! ### Claim theorems -/

/-- C3: for every parsed dialog submission, the handler reads the three
fields "title", "description" and "approver" from the untyped submission
mapping with checked type assertions; the extraction is total — it yields
a triple of strings for every submission mapping, substituting the fixed
defaults when a field is absent or holds a non-string value. -/
theorem extractFields_total (sub : Submission) (uid : String) :
    ∃ tt dd aa, extractFields sub uid = (tt, dd, aa) ∧
      ((sub.lookup "title" = none ∨ sub.lookup "title" = some GoVal.nonString) →
        tt = "Untitled Request") ∧
      ((sub.lookup "description" = none ∨
        sub.lookup "description" = some GoVal.nonString) →
        dd = "No description provided") ∧
      ((sub.lookup "approver" = none ∨ sub.lookup "approver" = some GoVal.nonString) →
        aa = uid) ∧
      (∀ v, sub.lookup "title" = some (GoVal.str v) → tt = v) ∧
      (∀ v, sub.lookup "description" = some (GoVal.str v) → dd = v) ∧
      (∀ v, sub.lookup "approver" = some (GoVal.str v) → aa = v) := by
  refine ⟨(extractFields sub uid).1, (extractFields sub uid).2.1,
    (extractFields sub uid).2.2, rfl, ?_, ?_, ?_, ?_, ?_, ?_⟩
  · rintro (h | h) <;> simp [extractFields, h]
  · rintro (h | h) <;> simp [extractFields, h]
  · rintro (h | h) <;> simp [extractFields, h]
  · intro v h
    simp [extractFields, h]
  · intro v h
    simp [extractFields, h]
  · intro v h
    simp [extractFields, h]

/-- Witness for C3 at a concrete submission in which "title" holds a
non-string value and the other two fields are absent. -/
theorem extractFields_total_witness :
    extractFields [("title", GoVal.nonString)] "U1" =
      ("Untitled Request", "No description provided", "U1") := by
  obtain ⟨tt, dd, aa, heq, ht, hd, ha, _, _, _⟩ :=
    extractFields_total [("title", GoVal.nonString)] "U1"
  rw [heq, ht (Or.inr rfl), hd (Or.inl rfl), ha (Or.inl rfl)]

/-- C5: the only write the plugin ever performs on the key-value store
happens during activation, at most once, and only under the fixed key
"bot_user_id"; command handling, HTTP handling and message sending only
read. -/
theorem kvStore_writeDiscipline (env : Env) (args : CommandArgs) (r : HttpRequest)
    (f toId title desc : String) :
    (kvSetKeys ((OnActivate env).run []).2 = [] ∨
      kvSetKeys ((OnActivate env).run []).2 = ["bot_user_id"]) ∧
    kvSetKeys ((ExecuteCommand env args).run []).2 = [] ∧
    kvSetKeys ((ServeHTTP env r).run []).2 = [] ∧
    kvSetKeys ((sendDirectMessage env f toId title desc).run []).2 = [] := by
  refine ⟨?_, ?_, ?_, ?_⟩
  · obtain ⟨res, t, hrun, hor⟩ := OnActivate_spec env []
    rw [hrun]
    simpa using hor
  · obtain ⟨res, t, hrun, hset, _⟩ := ExecuteCommand_spec env args []
    rw [hrun]
    simpa using hset
  · obtain ⟨resp, t, hrun, hset⟩ := ServeHTTP_spec env r []
    rw [hrun]
    simpa using hset
  · obtain ⟨res, t, hrun, hset, _⟩ := sendDirectMessage_spec env f toId title desc []
    rw [hrun]
    simpa using hset

/-- C7: `ServeHTTP` is wrapped in a panic-recovery guard: every run
returns a response (no panic propagates), and whenever the routing body
panics the returned response is the 500 JSON error response. -/
theorem ServeHTTP_panicRecovery (env : Env) (r : HttpRequest) :
    (∃ resp t, (ServeHTTP env r).run [] = (Except.ok resp, t)) ∧
    (∀ p t, (ServeHTTPBody env r).run [] = (Except.error p, t) →
      (ServeHTTP env r).run [] = (Except.ok internalErrorResponse, t)) := by
  constructor
  · obtain ⟨resp, t, hrun, _⟩ := ServeHTTP_spec env r []
    exact ⟨resp, [] ++ t, hrun⟩
  · intro p t hbody
    simp [ServeHTTP, hbody]

/-- A host environment whose key-value store panics, and a well-formed
submission request: used to exercise the panic-recovery guard. -/
def envPanicKv : Env :=
  { registerCommand := Except.ok none
    kvGet := fun _ => Except.error "boom"
    kvSet := fun _ _ => Except.ok none
    getUser := fun uid => Except.ok (some { id := uid, username := "alice" }, none)
    getUserByUsername := fun _ => Except.ok (none, none)
    createBot := fun _ => Except.ok (none, some { msg := "no bots" })
    getDirectChannel := fun _ _ => Except.ok (some { id := "dm" }, none)
    createPost := fun p => Except.ok (some p, none)
    sendEphemeralPost := fun _ p => Except.ok (some p)
    openInteractiveDialog := fun _ => Except.ok none }

/-- A well-formed dialog-submission HTTP request. -/
def reqSubmit : HttpRequest :=
  { path := "/dialog/submit",
    body := HttpBody.parsed
      { callbackId := "newApprovalRequest", userId := "U1", channelId := "C1",
        submission := [("title", GoVal.str "T"), ("description", GoVal.str "D"),
                       ("approver", GoVal.str "A1")] } }

/-- Witness for C7: on a host whose KV read panics while handling a
submission, `ServeHTTP` still returns, with the 500 JSON response. -/
theorem ServeHTTP_panicRecovery_witness :
    (ServeHTTP envPanicKv reqSubmit).run [] =
      (Except.ok internalErrorResponse, [Action.kvGet "bot_user_id"]) :=
  (ServeHTTP_panicRecovery envPanicKv reqSubmit).2 "boom" [Action.kvGet "bot_user_id"] rfl

/-- C10: a request whose path is not exactly "/dialog/submit" is answered
with 404 and triggers no host interaction at all; a request with that path
is routed to `handleDialogSubmission`. -/
theorem ServeHTTP_routing (env : Env) (r : HttpRequest) :
    (r.path ≠ "/dialog/submit" →
      (ServeHTTP env r).run [] = (Except.ok notFoundResponse, [])) ∧
    (r.path = "/dialog/submit" →
      (ServeHTTPBody env r).run [] = (handleDialogSubmission env r).run []) := by
  constructor
  · intro h
    simp [ServeHTTP, ServeHTTPBody, h]
  · intro h
    simp [ServeHTTPBody, h]

/-- Witness for C10: a request for another path gets the 404 response and
an empty action trace. -/
theorem ServeHTTP_routing_witness :
    (ServeHTTP envPanicKv { path := "/x", body := HttpBody.unreadable }).run [] =
      (Except.ok notFoundResponse, []) :=
  (ServeHTTP_routing envPanicKv { path := "/x", body := HttpBody.unreadable }).1
    (by decide)



/-- A host environment in which every `CreatePost` call fails, while
everything else (bot id, user lookups, channel lookups) succeeds. -/
def envNoDelivery : Env :=
  { registerCommand := Except.ok none
    kvGet := fun _ => Except.ok (some "BOT", none)
    kvSet := fun _ _ => Except.ok none
    getUser := fun uid => Except.ok (some { id := uid, username := "alice" }, none)
    getUserByUsername := fun _ => Except.ok (none, none)
    createBot := fun _ => Except.ok (none, some { msg := "no bots" })
    getDirectChannel := fun _ _ => Except.ok (some { id := "dm" }, none)
    createPost := fun _ => Except.ok (none, some { msg := "store down" })
    sendEphemeralPost := fun _ p => Except.ok (some p)
    openInteractiveDialog := fun _ => Except.ok none }

/-- Counterexample for C1 as stated: this submission parses and passes
validation (all three fields extract non-empty and the approver resolves),
yet zero direct-message posts are delivered, because both the bot-path and
the user-path `CreatePost` calls fail.  "Exactly one post" is therefore
false for an accepted submission. -/
theorem acceptedSubmission_zeroDeliveredPosts :
    extractFields [("title", GoVal.str "T"), ("description", GoVal.str "D"),
        ("approver", GoVal.str "A1")] "U1" = ("T", "D", "A1") ∧
    envNoDelivery.getUser "A1" =
      Except.ok (some { id := "A1", username := "alice" }, none) ∧
    ((handleDialogSubmission envNoDelivery reqSubmit).run []).1 =
      Except.ok (okDialogResponse "Failed to send message to approver: store down") ∧
    deliveredPosts ((handleDialogSubmission envNoDelivery reqSubmit).run []).2 = [] :=
  ⟨rfl, rfl, rfl, rfl⟩

/-- C1 (amended): for every dialog submission that the plugin accepts, at
most one direct-message post is delivered — exactly one whenever the
handler returns the success response — every post the handler ever
creates is authored either by the stored bot id or by the requesting
user's id, never any other identity, and every direct channel the handler
resolves for the send targets the chosen approver (the extracted approver
id). -/
theorem handleDialogSubmission_postDiscipline (env : Env) (r : HttpRequest)
    (req : SubmitDialogRequest) :
    r.body = HttpBody.parsed req →
    (deliveredPosts ((handleDialogSubmission env r).run []).2).length ≤ 1 ∧
    (((handleDialogSubmission env r).run []).1 = Except.ok (okDialogResponse "") →
      (deliveredPosts ((handleDialogSubmission env r).run []).2).length = 1) ∧
    (∀ p b, Action.createPost p b ∈ ((handleDialogSubmission env r).run []).2 →
      p.userId = req.userId ∨ some p.userId = storedBotId env) ∧
    (∀ a b, Action.getDirectChannel a b ∈ ((handleDialogSubmission env r).run []).2 →
      b = (extractFields req.submission req.userId).2.2) := by
  intro hb
  obtain ⟨res, t, hrun, hset, hpost, hdel, hdelone, hgdc⟩ :=
    handleDialogSubmission_spec env r []
  refine ⟨?_, ?_, ?_, ?_⟩
  · rw [hrun]
    simpa using hdel
  · rw [hrun]
    intro h
    simpa using hdelone h
  · rw [hrun]
    intro p b hmem
    have := hpost p b (by simpa using hmem)
    simpa [submitterId, hb] using this
  · rw [hrun]
    intro a b hmem
    have := hgdc a b (by simpa using hmem)
    simpa [submittedApprover, hb] using this

/-- A host environment in which everything succeeds, including post
creation. -/
def envAllOk : Env :=
  { registerCommand := Except.ok none
    kvGet := fun _ => Except.ok (some "BOT", none)
    kvSet := fun _ _ => Except.ok none
    getUser := fun uid => Except.ok (some { id := uid, username := "alice" }, none)
    getUserByUsername := fun _ => Except.ok (none, none)
    createBot := fun _ => Except.ok (none, some { msg := "no bots" })
    getDirectChannel := fun _ _ => Except.ok (some { id := "dm" }, none)
    createPost := fun p => Except.ok (some p, none)
    sendEphemeralPost := fun _ p => Except.ok (some p)
    openInteractiveDialog := fun _ => Except.ok none }

/-- Witness for the amended C1 on a fully successful host: the accepted
submission delivers at most one post. -/
theorem handleDialogSubmission_postDiscipline_witness :
    (deliveredPosts ((handleDialogSubmission envAllOk reqSubmit).run []).2).length ≤ 1 :=
  (handleDialogSubmission_postDiscipline envAllOk reqSubmit
    { callbackId := "newApprovalRequest", userId := "U1", channelId := "C1",
      submission := [("title", GoVal.str "T"), ("description", GoVal.str "D"),
                     ("approver", GoVal.str "A1")] } rfl).1

/-- The bot-path send of `sendDirectMessage` fails: the direct-channel
lookup for the bot returns an error or a nil channel, or the post creation
as the bot returns an error. -/
def botPathFails (env : Env) (botId toId msg : String) : Prop :=
  match env.getDirectChannel botId toId with
  | Except.ok (some ch, none) =>
    match env.createPost { userId := botId, channelId := ch.id, message := msg } with
    | Except.ok (_, some _) => True
    | _ => False
  | Except.ok (none, none) => True
  | Except.ok (_, some _) => True
  | Except.error _ => False

/-- C2: whenever a bot user id is present in the key-value store, the bot
user resolves, and the bot-path send fails, `sendDirectMessage` continues
into `sendAsUser` — the same formatted message sent as the requesting user
— and its outcome (return value and trace) is exactly the outcome of that
user-path send, not the bot-path error. -/
theorem sendDirectMessage_botFailure_fallsBack (env : Env)
    (f toId title desc bs : String) (kvE : Option AppErr) (requester botUser : User) :
    env.kvGet "bot_user_id" = Except.ok (some bs, kvE) →
    bs ≠ "" →
    env.getUser f = Except.ok (some requester, none) →
    env.getUser bs = Except.ok (some botUser, none) →
    botPathFails env bs toId (approvalMessage requester.username title desc) →
    ∃ s1, (sendDirectMessage env f toId title desc).run [] =
      (sendAsUser env f toId (approvalMessage requester.username title desc)).run s1 := by
  intro hkv hbs hgu hgb hfail
  have hbs2 : bs.isEmpty = false := by
    rcases h : bs.isEmpty with _ | _
    · rfl
    · exact absurd ((String.isEmpty_iff bs).mp h) hbs
  rcases hgc : env.getDirectChannel bs toId with p | ⟨chOpt, chErr⟩
  · exact absurd hfail (by simp [botPathFails, hgc])
  · rcases chErr with _ | ce
    · rcases chOpt with _ | ch
      · refine ⟨[Action.kvGet "bot_user_id", Action.getUser f, Action.getUser bs,
          Action.getDirectChannel bs toId], ?_⟩
        simp [sendDirectMessage, apiKvGet, apiGetUser, apiGetDirectChannel,
          hkv, hgu, hgb, hgc, bytesNonEmpty, hbs2]
      · rcases hcp : env.createPost
            { userId := bs, channelId := ch.id,
              message := approvalMessage requester.username title desc }
          with gp | ⟨po, pe⟩
        · exact absurd hfail (by simp [botPathFails, hgc, hcp])
        · rcases pe with _ | pee
          · exact absurd hfail (by simp [botPathFails, hgc, hcp])
          · refine ⟨[Action.kvGet "bot_user_id", Action.getUser f, Action.getUser bs,
              Action.getDirectChannel bs toId,
              Action.createPost
                { userId := bs, channelId := ch.id,
                  message := approvalMessage requester.username title desc } false], ?_⟩
            simp [sendDirectMessage, apiKvGet, apiGetUser, apiGetDirectChannel,
              hkv, hgu, hgb, hgc, hcp, bytesNonEmpty, hbs2]
    · refine ⟨[Action.kvGet "bot_user_id", Action.getUser f, Action.getUser bs,
        Action.getDirectChannel bs toId], ?_⟩
      simp [sendDirectMessage, apiKvGet, apiGetUser, apiGetDirectChannel,
        hkv, hgu, hgb, hgc, bytesNonEmpty, hbs2]

/-- Witness for C2: on the host where every post creation fails, the send
for the accepted submission falls through to the user path. -/
theorem sendDirectMessage_botFailure_fallsBack_witness :
    ∃ s1, (sendDirectMessage envNoDelivery "U1" "A1" "T" "D").run [] =
      (sendAsUser envNoDelivery "U1" "A1" (approvalMessage "alice" "T" "D")).run s1 :=
  sendDirectMessage_botFailure_fallsBack envNoDelivery "U1" "A1" "T" "D" "BOT" none
    { id := "U1", username := "alice" } { id := "BOT", username := "alice" }
    rfl (by decide) rfl rfl trivial



/-- C4: bot provisioning is a three-step fallback chain — cached id (kept
if the user still exists), else lookup by the fixed bot username, else bot
creation — and no later step is attempted once an earlier one succeeds
(the traces below are exact). -/
theorem ensureBotExists_threeStepFallback (env : Env) :
    (∀ bs u, env.kvGet "bot_user_id" = Except.ok (some bs, none) →
      env.getUser bs = Except.ok (some u, none) →
      (ensureBotExists env).run [] =
        (Except.ok (bs, none), [Action.kvGet "bot_user_id", Action.getUser bs])) ∧
    (∀ u e2, env.kvGet "bot_user_id" = Except.ok (none, none) →
      env.getUserByUsername "approvalbot" = Except.ok (some u, e2) →
      (ensureBotExists env).run [] =
        (Except.ok (u.id, none),
         [Action.kvGet "bot_user_id", Action.getUserByUsername "approvalbot"])) ∧
    (∀ bs uo ue u e2, env.kvGet "bot_user_id" = Except.ok (some bs, none) →
      env.getUser bs = Except.ok (uo, ue) → (uo = none ∨ ue ≠ none) →
      env.getUserByUsername "approvalbot" = Except.ok (some u, e2) →
      (ensureBotExists env).run [] =
        (Except.ok (u.id, none),
         [Action.kvGet "bot_user_id", Action.getUser bs,
          Action.getUserByUsername "approvalbot"])) ∧
    (∀ e2 cb, env.kvGet "bot_user_id" = Except.ok (none, none) →
      env.getUserByUsername "approvalbot" = Except.ok (none, e2) →
      env.createBot { username := "approvalbot", displayName := "Approver" } =
        Except.ok (some cb, none) →
      (ensureBotExists env).run [] =
        (Except.ok (cb.userId, none),
         [Action.kvGet "bot_user_id", Action.getUserByUsername "approvalbot",
          Action.createBot "approvalbot"])) := by
  refine ⟨?_, ?_, ?_, ?_⟩
  · intro bs u hkv hgu
    simp [ensureBotExists, apiKvGet, apiGetUser, hkv, hgu]
  · intro u e2 hkv hfind
    simp [ensureBotExists, findOrCreateBot, apiKvGet, apiGetUserByUsername, hkv, hfind]
  · intro bs uo ue u e2 hkv hgu hfail hfind
    rcases hfail with h | h
    · subst h
      rcases ue with _ | uev
      · simp [ensureBotExists, findOrCreateBot, apiKvGet, apiGetUser,
          apiGetUserByUsername, hkv, hgu, hfind]
      · simp [ensureBotExists, findOrCreateBot, apiKvGet, apiGetUser,
          apiGetUserByUsername, hkv, hgu, hfind]
    · rcases ue with _ | uev
      · exact absurd rfl h
      · rcases uo with _ | uov <;>
          simp [ensureBotExists, findOrCreateBot, apiKvGet, apiGetUser,
            apiGetUserByUsername, hkv, hgu, hfind]
  · intro e2 cb hkv hfind hcb
    simp [ensureBotExists, findOrCreateBot, apiKvGet, apiGetUserByUsername,
      apiCreateBot, hkv, hfind, hcb]

/-- A host environment with a valid cached bot id. -/
def envCachedBot : Env :=
  { registerCommand := Except.ok none
    kvGet := fun _ => Except.ok (some "B1", none)
    kvSet := fun _ _ => Except.ok none
    getUser := fun uid => Except.ok (some { id := uid, username := "approvalbot" }, none)
    getUserByUsername := fun _ => Except.ok (none, none)
    createBot := fun _ => Except.ok (none, some { msg := "no bots" })
    getDirectChannel := fun _ _ => Except.ok (none, none)
    createPost := fun _ => Except.ok (none, none)
    sendEphemeralPost := fun _ p => Except.ok (some p)
    openInteractiveDialog := fun _ => Except.ok none }

/-- Witness for C4: with a valid cached id, provisioning stops after the
first step. -/
theorem ensureBotExists_threeStepFallback_witness :
    (ensureBotExists envCachedBot).run [] =
      (Except.ok ("B1", none), [Action.kvGet "bot_user_id", Action.getUser "B1"]) :=
  (ensureBotExists_threeStepFallback envCachedBot).1 "B1"
    { id := "B1", username := "approvalbot" } rfl rfl

/-- C6: `ExecuteCommand` branches by a literal-prefix match on
"/approver" and the optional second whitespace-separated argument: no
prefix gives the ephemeral "Unknown command" response; second argument
"new" opens the approval dialog; anything else (including no argument)
gives the canned ephemeral hello-world response; and every normal return
carries a nil error. -/
theorem ExecuteCommand_dispatch (env : Env) (args : CommandArgs) :
    (goHasPre args.command "/approver" = false →
      (ExecuteCommand env args).run [] =
        (Except.ok (unknownCommandResponse args.command, none), [])) ∧
    (∀ w1 rest oe, goHasPre args.command "/approver" = true →
      goFields args.command = w1 :: "new" :: rest →
      env.openInteractiveDialog args.triggerId = Except.ok oe →
      ∃ cr, (ExecuteCommand env args).run [] =
        (Except.ok (cr, none), [Action.openDialog args.triggerId])) ∧
    (∀ w1 w2 rest, goHasPre args.command "/approver" = true →
      goFields args.command = w1 :: w2 :: rest → w2 ≠ "new" →
      (ExecuteCommand env args).run [] = (Except.ok (helloResponse, none), [])) ∧
    (goHasPre args.command "/approver" = true →
      (goFields args.command).length ≤ 1 →
      (ExecuteCommand env args).run [] = (Except.ok (helloResponse, none), [])) ∧
    (∀ res t, (ExecuteCommand env args).run [] = (res, t) →
      ∀ cr e, res = Except.ok (cr, e) → e = none) := by
  refine ⟨?_, ?_, ?_, ?_, ?_⟩
  · intro h
    simp [ExecuteCommand, h]
  · intro w1 rest oe hpre hf hod
    rcases oe with _ | e
    · exact ⟨emptyCommandResponse,
        by simp [ExecuteCommand, handleNewCommand, apiOpenDialog, hpre, hf, hod]⟩
    · exact ⟨dialogErrorResponse e,
        by simp [ExecuteCommand, handleNewCommand, apiOpenDialog, hpre, hf, hod]⟩
  · intro w1 w2 rest hpre hf hw2
    simp [ExecuteCommand, hpre, hf, hw2]
  · intro hpre hlen
    rcases hf : goFields args.command with _ | ⟨w1, rest⟩
    · simp [ExecuteCommand, hpre, hf]
    · rcases rest with _ | ⟨w2, rest2⟩
      · simp [ExecuteCommand, hpre, hf]
      · rw [hf] at hlen
        simp at hlen
  · intro res t hrun cr e hres
    obtain ⟨res2, t2, hrun2, _, _, herr⟩ := ExecuteCommand_spec env args []
    rw [hrun] at hrun2
    have h1 : res = res2 := congrArg Prod.fst hrun2
    exact herr cr e (h1 ▸ hres)

/-- Witness for C6: "/approver new" on a working host opens the dialog
with a nil error. -/
theorem ExecuteCommand_dispatch_witness :
    ∃ cr, (ExecuteCommand envAllOk { command := "/approver new", triggerId := "tid" }).run [] =
      (Except.ok (cr, none), [Action.openDialog "tid"]) :=
  (ExecuteCommand_dispatch envAllOk { command := "/approver new", triggerId := "tid" }).2.1
    "/approver" [] none (by decide) (by decide) rfl

/-- C8: when the "approver" field is absent from the submission mapping or
holds a non-string value, the handler substitutes the requester's own user
id, and every direct channel the handler resolves for the send targets
that requester. -/
theorem approverFallback_toRequester (env : Env) (r : HttpRequest)
    (req : SubmitDialogRequest) :
    r.body = HttpBody.parsed req →
    (req.submission.lookup "approver" = none ∨
     req.submission.lookup "approver" = some GoVal.nonString) →
    (extractFields req.submission req.userId).2.2 = req.userId ∧
    (∀ a b, Action.getDirectChannel a b ∈ ((handleDialogSubmission env r).run []).2 →
      b = req.userId) := by
  intro hb hap
  have hext : (extractFields req.submission req.userId).2.2 = req.userId := by
    rcases hap with h | h <;> simp [extractFields, h]
  refine ⟨hext, ?_⟩
  obtain ⟨res, t, hrun, _, _, _, _, hgdc⟩ := handleDialogSubmission_spec env r []
  intro a b hmem
  rw [hrun] at hmem
  have hb2 := hgdc a b (by simpa using hmem)
  simpa [submittedApprover, hb, hext] using hb2

/-- A submission request in which the approver field holds a non-string
value. -/
def reqNoApprover : HttpRequest :=
  { path := "/dialog/submit",
    body := HttpBody.parsed
      { callbackId := "newApprovalRequest", userId := "U1", channelId := "C1",
        submission := [("title", GoVal.str "T"), ("description", GoVal.str "D"),
                       ("approver", GoVal.nonString)] } }

/-- Witness for C8: with a non-string approver value, extraction falls
back to the requester "U1". -/
theorem approverFallback_toRequester_witness :
    (extractFields [("title", GoVal.str "T"), ("description", GoVal.str "D"),
        ("approver", GoVal.nonString)] "U1").2.2 = "U1" :=
  (approverFallback_toRequester envAllOk reqNoApprover
    { callbackId := "newApprovalRequest", userId := "U1", channelId := "C1",
      submission := [("title", GoVal.str "T"), ("description", GoVal.str "D"),
                     ("approver", GoVal.nonString)] } rfl (Or.inr rfl)).1

/-- C9: if after extraction the title, description or approver id is
empty, or the approver lookup returns an error, the handler answers with
HTTP 200 and a non-empty Error field and performs no message send — the
exact traces contain no `CreatePost` and no `SendEphemeralPost`. -/
theorem handleDialogSubmission_validationFailure_noSend (env : Env) (r : HttpRequest)
    (req : SubmitDialogRequest) (kv : Option String × Option AppErr)
    (tt dd aa : String) :
    r.body = HttpBody.parsed req →
    extractFields req.submission req.userId = (tt, dd, aa) →
    env.kvGet "bot_user_id" = Except.ok kv →
    ((tt = "" ∨ dd = "" ∨ aa = "") →
      (handleDialogSubmission env r).run [] =
        (Except.ok (okDialogResponse
          "Missing required fields. Please fill in all fields and try again."),
         [Action.kvGet "bot_user_id"]) ∧
      (∀ a, a ∈ ((handleDialogSubmission env r).run []).2 → isSendAction a = false)) ∧
    (∀ ae auOpt, ¬(tt = "" ∨ dd = "" ∨ aa = "") →
      env.getUser aa = Except.ok (auOpt, some ae) →
      (handleDialogSubmission env r).run [] =
        (Except.ok (okDialogResponse
          "The selected approver is invalid. Please select a different user."),
         [Action.kvGet "bot_user_id", Action.getUser aa]) ∧
      (∀ a, a ∈ ((handleDialogSubmission env r).run []).2 → isSendAction a = false)) := by
  intro hb hext hkv
  constructor
  · intro hval
    have hrun : (handleDialogSubmission env r).run [] =
        (Except.ok (okDialogResponse
          "Missing required fields. Please fill in all fields and try again."),
         [Action.kvGet "bot_user_id"]) := by
      simp [handleDialogSubmission, hb, hext, apiKvGet, hkv, hval]
    refine ⟨hrun, ?_⟩
    rw [hrun]
    intro a ha
    fin_cases ha
    simp [isSendAction]
  · intro ae auOpt hval hgu
    have hrun : (handleDialogSubmission env r).run [] =
        (Except.ok (okDialogResponse
          "The selected approver is invalid. Please select a different user."),
         [Action.kvGet "bot_user_id", Action.getUser aa]) := by
      simp [handleDialogSubmission, hb, hext, apiKvGet, apiGetUser, hkv, hgu, hval]
    refine ⟨hrun, ?_⟩
    rw [hrun]
    intro a ha
    fin_cases ha <;> simp [isSendAction]

/-- A submission request whose title extracts to the empty string. -/
def reqEmptyTitle : HttpRequest :=
  { path := "/dialog/submit",
    body := HttpBody.parsed
      { callbackId := "newApprovalRequest", userId := "U1", channelId := "C1",
        submission := [("title", GoVal.str ""), ("description", GoVal.str "D"),
                       ("approver", GoVal.str "A1")] } }

/-- Witness for C9: an empty title yields the missing-fields error
response and a trace holding only the KV read. -/
theorem handleDialogSubmission_validationFailure_noSend_witness :
    (handleDialogSubmission envAllOk reqEmptyTitle).run [] =
      (Except.ok (okDialogResponse
        "Missing required fields. Please fill in all fields and try again."),
       [Action.kvGet "bot_user_id"]) :=
  ((handleDialogSubmission_validationFailure_noSend envAllOk reqEmptyTitle
    { callbackId := "newApprovalRequest", userId := "U1", channelId := "C1",
      submission := [("title", GoVal.str ""), ("description", GoVal.str "D"),
                     ("approver", GoVal.str "A1")] }
    (some "BOT", none) "" "D" "A1" rfl rfl rfl).1 (Or.inl rfl)).1

end Approver
